import Mathlib

/-!
Shallow embedding of the return-policy chat agent (src/agent/return_agent.py,
src/main.py) and proofs about the claims of its specification.

Modelling conventions:
- Python strings are Lean `String`s; the Python `str` methods used by the code
  (`split`, `strip`, `lower`, `isalnum`, substring containment) are re-implemented
  structurally over `List Char` so that concrete runs reduce in the kernel.
  Character classes are modelled over ASCII, which covers every string the
  program manipulates.
- The sqlite store is modelled as an explicit `Database` value threaded through
  the functions that open a connection; `update_log` is a ghost trace recording
  every executed UPDATE statement (one entry per call that reaches
  `cursor.execute`), used to state write-idempotency properties.
- Monetary columns (`price`, `freight_value`, `payment_value`) are modelled as
  integers; no claim depends on fractional arithmetic or on `round`.
- Each `try/except` block around an external call (sqlite, the PDF retriever,
  the chat model) is modelled by a Boolean failure oracle in `Collab`: when the
  flag is set the call raises and the `except` branch value is returned.
- Python exceptions that are NOT caught (the `KeyError` raised by
  `order_summary['order_id']` when `_get_order_summary` returned an empty dict)
  are modelled with `Except String`.
- `state["messages"][-1]` is modelled by `lastContent`, which returns the last
  element; the empty-list default never arises on the paths the program runs
  (a user turn is always appended before the graph is invoked).
-/

set_option maxRecDepth 20000

/-- Split a character list on runs of whitespace, discarding empty pieces;
this is the behaviour of Python `str.split()` with no argument. -/
def splitWsAux : List Char → List Char → List (List Char)
  | [], acc => if acc.isEmpty then [] else [acc.reverse]
  | c :: cs, acc =>
    if c.isWhitespace then
      if acc.isEmpty then splitWsAux cs [] else acc.reverse :: splitWsAux cs []
    else splitWsAux cs (c :: acc)

/-- Python `message.split()`. -/
def pySplit (s : String) : List String :=
  (splitWsAux s.toList []).map fun l => String.mk l

/-- Python `word.isalnum()` (ASCII): non-empty and every character alphanumeric. -/
def pyIsAlnum (s : String) : Bool :=
  let cs := s.toList
  !cs.isEmpty && cs.all Char.isAlphanum

/-- Drop leading whitespace characters. -/
def dropWs (cs : List Char) : List Char :=
  match cs with
  | [] => []
  | c :: rest => if c.isWhitespace then dropWs rest else c :: rest

/-- Python `message.strip()`. -/
def pyStrip (s : String) : String :=
  String.mk ((dropWs (dropWs s.toList).reverse).reverse)

/-- Python `s.lower()` (ASCII). -/
def pyLower (s : String) : String :=
  String.mk (s.toList.map Char.toLower)

/-- Is `needle` a contiguous sublist of the character list? -/
def subListAt : List Char → List Char → Bool
  | needle, [] => needle.isEmpty
  | needle, c :: cs => needle.isPrefixOf (c :: cs) || subListAt needle cs

/-- Python `needle in haystack` on strings. -/
def pyIn (needle haystack : String) : Bool :=
  subListAt needle.toList haystack.toList

/-- Stable insertion into a list sorted by `le`. -/
def insertLe (le : α → α → Bool) (x : α) : List α → List α
  | [] => [x]
  | y :: ys => if le x y then x :: y :: ys else y :: insertLe le x ys

/-- Stable insertion sort; models the ordering produced by an SQL ORDER BY. -/
def sortByLe (le : α → α → Bool) : List α → List α
  | [] => []
  | x :: xs => insertLe le x (sortByLe le xs)

/-- One conversation message, a dict with keys role and content in the source. -/
structure Msg where
  role : String
  content : String
deriving Repr, DecidableEq

/-- The AgentState TypedDict of src/agent/return_agent.py. -/
structure AgentState where
  messages : List Msg
  customer_id : Option String
  current_order_id : Option String
  return_conditions_met : Bool
  conversation_stage : String
deriving Repr, DecidableEq

/-- The self.conversation_state dict kept on the ReturnPolicyAgent instance;
it survives across process_message invocations. -/
structure ConversationState where
  stage : String
  customer_id : Option String
  current_order_id : Option String
  return_conditions_met : Bool
deriving Repr, DecidableEq

/-- The value self.conversation_state is initialised to in __init__. -/
def initialConversationState : ConversationState :=
  { stage := "greeting", customer_id := none, current_order_id := none,
    return_conditions_met := false }

/-- A row of the orders table (the columns the code reads). -/
structure OrderRow where
  order_id : String
  customer_id : String
  order_purchase_timestamp : String
  order_status : String
deriving Repr, DecidableEq

/-- A row of the order_items table (the columns the code reads). -/
structure OrderItemRow where
  order_id : String
  price : Int
  freight_value : Int
deriving Repr, DecidableEq

/-- A row of the order_payments table (the columns the code reads). -/
structure PaymentRow where
  order_id : String
  payment_type : String
  payment_value : Int
  payment_installments : Nat
deriving Repr, DecidableEq

/-- The sqlite store at datasets/olist_ecommerce.db, restricted to the tables
the agent touches. customers holds the customer_id column. update_log is a
ghost trace of executed UPDATE statements (new status, order id), recorded so
that write-idempotency can be stated; it does not influence any query result. -/
structure Database where
  customers : List String
  orders : List OrderRow
  order_items : List OrderItemRow
  order_payments : List PaymentRow
  update_log : List (String × String)
deriving Repr, DecidableEq

/-- Oracles for the external collaborators and their failure modes. The exn
flags model an exception raised inside the corresponding try block. -/
structure Collab where
  pdf_available : Bool
  policy_exn : Bool
  llm_summary : String
  customer_exn : Bool
  orders_exn : Bool
  update_exn : Bool
  payment_exn : Bool
  summary_exn : Bool
deriving Repr, DecidableEq

/-- All collaborators available and succeeding, PDF retriever absent
(setup returned None), so the canned policy text is used. -/
def extDefault : Collab :=
  { pdf_available := false, policy_exn := false, llm_summary := "",
    customer_exn := false, orders_exn := false, update_exn := false,
    payment_exn := false, summary_exn := false }

/-- The method _customer_exists: SELECT COUNT(*) FROM customers WHERE
customer_id = ?; an exception is caught and yields False. -/
def _customer_exists (ext : Collab) (db : Database) (customer_id : String) : Bool :=
  if ext.customer_exn then false
  else !(db.customers.filter (fun c => c == customer_id)).isEmpty

/-- SUM(oi.price + oi.freight_value) over the order_items rows of one order;
the LEFT JOIN yields NULL for an order with no items, which the Python code
turns into 0. -/
def orderTotal (db : Database) (oid : String) : Int :=
  ((db.order_items.filter (fun it => it.order_id == oid)).map
    (fun it => it.price + it.freight_value)).foldl (· + ·) 0

/-- A row of the result list built by _get_customer_orders. -/
structure OrderInfo where
  order_id : String
  order_purchase_timestamp : String
  order_status : String
  total_amount : Int
deriving Repr, DecidableEq

/-- The method _get_customer_orders: orders of one customer, most recent
purchase timestamp first, at most limit rows; an exception yields []. The
customer_id argument can be None (SQL = NULL matches no row). order_id is the
primary key of the orders table, so the GROUP BY of the source groups
singleton rows and is modelled by a plain filter. -/
def _get_customer_orders (ext : Collab) (db : Database) (customer_id : Option String)
    (limit : Nat) : List OrderInfo :=
  if ext.orders_exn then []
  else
    match customer_id with
    | none => []
    | some cid =>
      let rows := db.orders.filter (fun o => o.customer_id == cid)
      let sorted := sortByLe
        (fun a b => decide (b.order_purchase_timestamp ≤ a.order_purchase_timestamp)) rows
      (sorted.take limit).map fun o =>
        { order_id := o.order_id,
          order_purchase_timestamp := o.order_purchase_timestamp,
          order_status := o.order_status,
          total_amount := orderTotal db o.order_id }

/-- Effect of the UPDATE statement of _update_order_status on one orders row. -/
def updF (order_id new_status : String) (o : OrderRow) : OrderRow :=
  if o.order_id == order_id then { o with order_status := new_status } else o

/-- The method _update_order_status: UPDATE orders SET order_status = ? WHERE
order_id = ?, commit, return True; an exception yields False. The UPDATE
succeeds (and True is returned) even when no row matches. The executed
statement is recorded in the ghost update_log. -/
def _update_order_status (ext : Collab) (db : Database) (order_id new_status : String) :
    Database × Bool :=
  if ext.update_exn then (db, false)
  else
    ({ db with
        orders := db.orders.map (updF order_id new_status),
        update_log := db.update_log ++ [(new_status, order_id)] },
     true)

/-- The method _get_order_payment_info: first order_payments row of the order,
none both when no row exists and when an exception occurs (the code returns an
empty dict in both cases and later reads it with .get defaults). -/
def _get_order_payment_info (ext : Collab) (db : Database) (order_id : String) :
    Option PaymentRow :=
  if ext.payment_exn then none
  else db.order_payments.find? (fun p => p.order_id == order_id)

/-- The dict returned by _get_order_summary when the order row exists. -/
structure OrderSummary where
  order_id : String
  order_status : String
  order_purchase_timestamp : String
  item_count : Nat
deriving Repr, DecidableEq

/-- The method _get_order_summary: order row plus item count; none models the
empty dict returned when the order does not exist or an exception occurs. -/
def _get_order_summary (ext : Collab) (db : Database) (order_id : String) :
    Option OrderSummary :=
  if ext.summary_exn then none
  else
    match db.orders.find? (fun o => o.order_id == order_id) with
    | none => none
    | some o =>
      some { order_id := o.order_id, order_status := o.order_status,
             order_purchase_timestamp := o.order_purchase_timestamp,
             item_count := (db.order_items.filter (fun it => it.order_id == order_id)).length }

/-- The for loop of _extract_customer_id: first word longer than 10 characters
that is alphanumeric. -/
def customerWordLoop : List String → Option String
  | [] => none
  | w :: ws => if w.length > 10 && pyIsAlnum w then some w else customerWordLoop ws

/-- The method _extract_customer_id. -/
def _extract_customer_id (message : String) : Option String :=
  customerWordLoop (pySplit message)

/-- The second loop of _extract_order_id: first word longer than 20 characters
that is alphanumeric. -/
def orderWordLoop : List String → Option String
  | [] => none
  | w :: ws => if w.length > 20 && pyIsAlnum w then some w else orderWordLoop ws

/-- Placeholder row used to model Python list indexing that is guarded by an
explicit bounds check in the source. -/
def dummyOrderInfo : OrderInfo :=
  { order_id := "", order_purchase_timestamp := "", order_status := "",
    total_amount := 0 }

/-- The method _extract_order_id: a bare 1, 2 or 3 selects from the listed
orders when in range, otherwise the message is scanned for a long
alphanumeric word. -/
def _extract_order_id (ext : Collab) (db : Database) (message : String)
    (customer_id : Option String) : Option String :=
  let stripped := pyStrip message
  if stripped == "1" || stripped == "2" || stripped == "3" then
    let orders := _get_customer_orders ext db customer_id 3
    let n : Nat := if stripped == "1" then 1 else if stripped == "2" then 2 else 3
    if !orders.isEmpty && n ≤ orders.length then
      some ((orders.getD (n - 1) dummyOrderInfo).order_id)
    else orderWordLoop (pySplit message)
  else orderWordLoop (pySplit message)


/-- Python state["messages"][-1].content; the list is never empty on the
paths the program executes (a user turn is appended before the graph runs). -/
def lastContent (msgs : List Msg) : String :=
  (msgs.getLastD { role := "", content := "" }).content

/-- Response of the greeting node when a return keyword is present. -/
def greetingReturnResponse : String :=
  "I\x27d be happy to help you with your return request! Let me first provide you with our return policy information and then we can proceed with your specific case."

/-- Response of the greeting node when no return keyword is present. -/
def greetingDefaultResponse : String :=
  "Hello! I\x27m here to help you with returns and refunds. How can I assist you today?"

/-- The method _greeting_node: keyword scan on the lowercased last message,
stage set to policy_info or greeting, one assistant message appended, the
stage mirrored into self.conversation_state. -/
def _greeting_node (cs : ConversationState) (state : AgentState) :
    ConversationState × AgentState :=
  if ["return", "refund", "cancel", "exchange"].any
      (fun k => pyIn k (pyLower (lastContent state.messages))) then
    ({ cs with stage := "policy_info" },
     { state with
        conversation_stage := "policy_info",
        messages := state.messages ++ [{ role := "assistant", content := greetingReturnResponse }] })
  else
    ({ cs with stage := "greeting" },
     { state with
        conversation_stage := "greeting",
        messages := state.messages ++ [{ role := "assistant", content := greetingDefaultResponse }] })

/-- Canned policy summary used both when the PDF retriever is unavailable and
when retrieval or generation raises. -/
def policyFallbackResponse : String :=
  "I can help you with returns! Our standard return policy includes:\n- Items must be returned within 30 days\n- Items must be in original condition\n- Original packaging preferred\n\nTo proceed, I\x27ll need your customer ID. What is your customer ID?"

/-- Follow-up questions appended to the generated policy summary. -/
def policyFollowUp : String :=
  "\n\nTo proceed with your return, I\x27ll need to ask you a few questions:\n1. What is your customer ID?\n2. Can you confirm that your item meets our return conditions?"

/-- The method _policy_info_node: retrieval plus generation inside a try block
whose failure (or an absent retriever) yields the canned summary; stage set to
conditions_check, one assistant message appended. -/
def _policy_info_node (ext : Collab) (cs : ConversationState) (state : AgentState) :
    ConversationState × AgentState :=
  ({ cs with stage := "conditions_check" },
   { state with
      conversation_stage := "conditions_check",
      messages := state.messages ++
        [{ role := "assistant",
           content :=
             if ext.pdf_available then
               if ext.policy_exn then policyFallbackResponse
               else ext.llm_summary ++ policyFollowUp
             else policyFallbackResponse }] })

/-- Response of the conditions-check node when the customer was found. -/
def customerFoundResponse : String :=
  "Thank you! I found your account. Now let me check your recent orders to see what you\x27d like to return."

/-- Response of the conditions-check node when the customer was not found. -/
def customerNotFoundResponse : String :=
  "I couldn\x27t find a customer with that ID. Could you please double-check your customer ID?"

/-- Response of the conditions-check node when no customer id was extracted. -/
def customerMissingResponse : String :=
  "I need your customer ID to look up your orders. Could you please provide your customer ID?"

/-- The method _conditions_check_node: extract a customer id from the last
message, store it in the graph state and in self.conversation_state, check
existence in the database, set the stage, append one assistant message. -/
def _conditions_check_node (ext : Collab) (db : Database) (cs : ConversationState)
    (state : AgentState) : ConversationState × AgentState :=
  match _extract_customer_id (lastContent state.messages) with
  | some customer_id =>
    if _customer_exists ext db customer_id then
      ({ cs with customer_id := some customer_id, stage := "order_selection" },
       { state with
          customer_id := some customer_id,
          conversation_stage := "order_selection",
          messages := state.messages ++ [{ role := "assistant", content := customerFoundResponse }] })
    else
      ({ cs with customer_id := some customer_id, stage := "conditions_check" },
       { state with
          customer_id := some customer_id,
          conversation_stage := "conditions_check",
          messages := state.messages ++ [{ role := "assistant", content := customerNotFoundResponse }] })
  | none =>
    ({ cs with stage := "conditions_check" },
     { state with
        conversation_stage := "conditions_check",
        messages := state.messages ++ [{ role := "assistant", content := customerMissingResponse }] })

/-- The enumerated body of the order listing built by _order_selection_node. -/
def listingBody (i : Nat) : List OrderInfo → String
  | [] => ""
  | o :: os =>
    toString i ++ ". Order ID: " ++ o.order_id ++ "\n" ++
    "   Date: " ++ o.order_purchase_timestamp ++ "\n" ++
    "   Status: " ++ o.order_status ++ "\n" ++
    "   Total: $" ++ toString o.total_amount ++ "\n\n" ++
    listingBody (i + 1) os

/-- The full order listing response of _order_selection_node. -/
def orderListingResponse (orders : List OrderInfo) : String :=
  "Here are your last 3 orders:\n\n" ++ listingBody 1 orders ++
  "Which order would you like to return? Please provide the order ID or number (1, 2, or 3)."

/-- Response of the order-selection node when the customer has no orders. -/
def noOrdersResponse : String :=
  "I couldn\x27t find any orders for your account. Please check your customer ID or contact support."

/-- The method _order_selection_node: fetch the last three orders and list
them, or report that none were found. In the empty branch the source first
sets the stage to conditions_check, but then unconditionally overwrites it
with confirmation before appending the message and returning, with no
external call in between, so the node always exits with stage confirmation
in both the graph state and self.conversation_state. -/
def _order_selection_node (ext : Collab) (db : Database) (cs : ConversationState)
    (state : AgentState) : ConversationState × AgentState :=
  if !(_get_customer_orders ext db state.customer_id 3).isEmpty then
    ({ cs with stage := "confirmation" },
     { state with
        conversation_stage := "confirmation",
        messages := state.messages ++
          [{ role := "assistant",
             content := orderListingResponse (_get_customer_orders ext db state.customer_id 3) }] })
  else
    ({ cs with stage := "confirmation" },
     { state with
        conversation_stage := "confirmation",
        messages := state.messages ++ [{ role := "assistant", content := noOrdersResponse }] })

/-- The success response built by _confirmation_node; the .get defaults of the
payment dict yield N/A both for a missing row and after a caught exception. -/
def confirmSuccessResponse (order_id : String) (payment_info : Option PaymentRow)
    (os : OrderSummary) : String :=
  "Perfect! I\x27ve successfully processed your return request for order " ++ order_id ++ ".\n\n" ++
  "Payment Information:\n" ++
  "- Payment Method: " ++ (match payment_info with
    | some p => p.payment_type
    | none => "N/A") ++ "\n" ++
  "- Amount: $" ++ (match payment_info with
    | some p => toString p.payment_value
    | none => "N/A") ++ "\n" ++
  "- Installments: " ++ (match payment_info with
    | some p => toString p.payment_installments
    | none => "N/A") ++ "\n\n" ++
  "Your refund will be processed within 3 business days using the original payment method.\n\n" ++
  "Order Summary:\n" ++
  "- Order ID: " ++ os.order_id ++ "\n" ++
  "- Status: " ++ os.order_status ++ "\n" ++
  "- Purchase Date: " ++ os.order_purchase_timestamp ++ "\n" ++
  "- Items: " ++ toString os.item_count ++ " items\n"

/-- Response of the confirmation node when the status update returned False. -/
def updateFailedResponse : String :=
  "I encountered an issue processing your return. Please try again or contact support."

/-- Response of the confirmation node when no order id was extracted. -/
def orderMissingResponse : String :=
  "I couldn\x27t identify which order you want to return. Please provide the order ID or select a number (1, 2, or 3)."

/-- The method _confirmation_node: extract an order id from the last message,
store it in the graph state and in self.conversation_state, run the UPDATE,
and on success read payment info and the order summary. When the summary
dict is empty (order absent from the orders table, or the summary query
raised) the source indexes it anyway and an uncaught KeyError aborts the
turn; this is the Except.error case, in which the mutations already made to
self.conversation_state and to the database survive while no message is
appended. -/
def _confirmation_node (ext : Collab) (db : Database) (cs : ConversationState)
    (state : AgentState) : Database × ConversationState × Except String AgentState :=
  match _extract_order_id ext db (lastContent state.messages) state.customer_id with
  | some order_id =>
    match _update_order_status ext db order_id "returned" with
    | (db2, true) =>
      match _get_order_summary ext db2 order_id with
      | none =>
        (db2, { cs with current_order_id := some order_id },
         Except.error "KeyError: \x27order_id\x27")
      | some os =>
        (db2, { cs with current_order_id := some order_id, stage := "completion" },
         Except.ok { state with
            current_order_id := some order_id,
            conversation_stage := "completion",
            messages := state.messages ++
              [{ role := "assistant",
                 content := confirmSuccessResponse order_id
                   (_get_order_payment_info ext db2 order_id) os }] })
    | (db2, false) =>
      (db2, { cs with current_order_id := some order_id, stage := "order_selection" },
       Except.ok { state with
          current_order_id := some order_id,
          conversation_stage := "order_selection",
          messages := state.messages ++ [{ role := "assistant", content := updateFailedResponse }] })
  | none =>
    (db, cs,
     Except.ok { state with
        conversation_stage := "confirmation",
        messages := state.messages ++ [{ role := "assistant", content := orderMissingResponse }] })

/-- Response of the completion node. -/
def completionResponse : String :=
  "Your return has been successfully processed! Is there anything else I can help you with today?"

/-- The method _completion_node: append the closing message and set the stage
to completion; self.conversation_state is not touched by this node. -/
def _completion_node (state : AgentState) : AgentState :=
  { state with
      messages := state.messages ++ [{ role := "assistant", content := completionResponse }],
      conversation_stage := "completion" }

/-- The compiled LangGraph of _create_agent_graph: a linear chain
greeting, policy_info, conditions_check, order_selection, confirmation,
completion, entered at greeting on every invocation. The
self.conversation_state dict is threaded through because the nodes mutate it
as they run; when the confirmation node raises, the mutations made up to
that point survive, as do the committed UPDATEs. -/
def runPipeline (ext : Collab) (db : Database) (cs : ConversationState)
    (state : AgentState) : Database × ConversationState × Except String AgentState :=
  match _greeting_node cs state with
  | (cs1, s1) =>
    match _policy_info_node ext cs1 s1 with
    | (cs2, s2) =>
      match _conditions_check_node ext db cs2 s2 with
      | (cs3, s3) =>
        match _order_selection_node ext db cs3 s3 with
        | (cs4, s4) =>
          match _confirmation_node ext db cs4 s4 with
          | (db5, cs5, Except.error e) => (db5, cs5, Except.error e)
          | (db5, cs5, Except.ok s5) => (db5, cs5, Except.ok (_completion_node s5))

/-- The dict returned by process_message. -/
structure ProcessResult where
  message : String
  conversation_history : List Msg
deriving Repr, DecidableEq

/-- The AgentState built at the top of process_message from
self.conversation_state, the caller-supplied history and the incoming user
message. -/
def initState (cs : ConversationState) (message : String)
    (conversation_history : List Msg) : AgentState :=
  { messages := conversation_history ++ [{ role := "user", content := message }],
    customer_id := cs.customer_id,
    current_order_id := cs.current_order_id,
    return_conditions_met := cs.return_conditions_met,
    conversation_stage := cs.stage }

/-- The method process_message: build the initial state, invoke the graph,
copy the resulting fields back into self.conversation_state (the result dict
always carries all four keys, so the .get fallbacks never fire), and return
the last message plus the full history. When the graph raises, the exception
propagates to the caller and self.conversation_state keeps the mutations the
nodes made before the failure. -/
def process_message (ext : Collab) (db : Database) (cs : ConversationState)
    (message : String) (conversation_history : List Msg) :
    Database × ConversationState × Except String ProcessResult :=
  match runPipeline ext db cs (initState cs message conversation_history) with
  | (db1, cs1, Except.error e) => (db1, cs1, Except.error e)
  | (db1, _, Except.ok s1) =>
    (db1,
     { stage := s1.conversation_stage, customer_id := s1.customer_id,
       current_order_id := s1.current_order_id,
       return_conditions_met := s1.return_conditions_met },
     Except.ok
       { message := match s1.messages.getLast? with
           | some m => m.content
           | none => "I\x27m sorry, I couldn\x27t process your request.",
         conversation_history := s1.messages })

/-- The ChatMessage pydantic model of src/main.py. -/
structure ChatMessage where
  role : String
  content : String
  timestamp : Option String
deriving Repr, DecidableEq

/-- LangChain message kinds as used in src/main.py: HumanMessage, AIMessage,
or any other BaseMessage subclass (system or tool messages). -/
inductive BaseMessage where
  | human (content : String)
  | ai (content : String)
  | other (content : String)
deriving Repr, DecidableEq

/-- The function convert_messages_to_langchain of src/main.py: user becomes
HumanMessage, assistant becomes AIMessage, every other role is skipped. -/
def convert_messages_to_langchain : List ChatMessage → List BaseMessage
  | [] => []
  | m :: ms =>
    if m.role == "user" then
      BaseMessage.human m.content :: convert_messages_to_langchain ms
    else if m.role == "assistant" then
      BaseMessage.ai m.content :: convert_messages_to_langchain ms
    else convert_messages_to_langchain ms

/-- The function convert_langchain_to_messages of src/main.py: HumanMessage
becomes a user ChatMessage, AIMessage an assistant ChatMessage (timestamp
None), every other message class is skipped. -/
def convert_langchain_to_messages : List BaseMessage → List ChatMessage
  | [] => []
  | BaseMessage.human c :: ms =>
    { role := "user", content := c, timestamp := none } :: convert_langchain_to_messages ms
  | BaseMessage.ai c :: ms =>
    { role := "assistant", content := c, timestamp := none } :: convert_langchain_to_messages ms
  | BaseMessage.other _ :: ms => convert_langchain_to_messages ms

/-- Appending turns and reading them back through the API conversion layer of
src/main.py. -/
def roundTrip (msgs : List ChatMessage) : List ChatMessage :=
  convert_langchain_to_messages (convert_messages_to_langchain msgs)

/-- Modelled from the spec: the Router of the graph-based core is not under
src (src/main.py only imports the compiled agent object and seeds its state
with a decide_path field); section 4.1 of the spec fixes a closed label set
for the RoutingDecision. -/
def routingLabels : List String :=
  ["data-only", "document-only", "combined", "none"]

/-- Modelled from the spec: the Router must validate the raw label returned
by the Completion Service against the closed set and default to none on any
unrecognized value. -/
def validateRoutingDecision (raw : String) : String :=
  if raw ∈ routingLabels then raw else "none"

/-- Position of a stage in the linear order declared by the AgentState
comment: greeting, policy_info, conditions_check, order_selection,
confirmation, completion. -/
def stageIndex (s : String) : Nat :=
  if s == "greeting" then 0
  else if s == "policy_info" then 1
  else if s == "conditions_check" then 2
  else if s == "order_selection" then 3
  else if s == "confirmation" then 4
  else 5

/-- Rendering of claim C4 for one stage write: the stage either moves forward
in the linear order or lands on one of the two backward targets the claim
allows (conditions_check after a failed customer lookup, order_selection
after a failed update). -/
def stageForwardOrAllowedBack (before after : String) : Prop :=
  stageIndex before ≤ stageIndex after ∨
  after = "conditions_check" ∨ after = "order_selection"

instance (before after : String) : Decidable (stageForwardOrAllowedBack before after) := by
  unfold stageForwardOrAllowedBack; infer_instance

/-- Rendering of claim C8 for the fallible confirmation node: the run ended
normally and appended exactly one assistant turn after the unchanged prefix. -/
def appendsOneAssistantOk (before : List Msg) (r : Except String AgentState) : Prop :=
  ∃ resp s1, r = Except.ok s1 ∧
    s1.messages = before ++ [{ role := "assistant", content := resp }]

/-- Convert an Except value to an Option, used to state observations about
normally terminating runs. -/
def exceptOk : Except String α → Option α
  | Except.ok a => some a
  | Except.error _ => none

instance [DecidableEq ε] [DecidableEq α] : DecidableEq (Except ε α) := fun x y =>
  match x, y with
  | Except.ok a, Except.ok b =>
    if h : a = b then isTrue (by rw [h]) else isFalse (by intro c; cases c; exact h rfl)
  | Except.error a, Except.error b =>
    if h : a = b then isTrue (by rw [h]) else isFalse (by intro c; cases c; exact h rfl)
  | Except.ok _, Except.error _ => isFalse (by intro c; cases c)
  | Except.error _, Except.ok _ => isFalse (by intro c; cases c)

theorem greeting_appends (cs : ConversationState) (s : AgentState) :
    ∃ r, ((_greeting_node cs s).2).messages =
      s.messages ++ [{ role := "assistant", content := r }] := by
  unfold _greeting_node
  split
  · exact ⟨_, rfl⟩
  · exact ⟨_, rfl⟩

theorem greeting_stage (cs : ConversationState) (s : AgentState) :
    ((_greeting_node cs s).2).conversation_stage = "greeting" ∨
    ((_greeting_node cs s).2).conversation_stage = "policy_info" := by
  unfold _greeting_node
  split
  · right; rfl
  · left; rfl

theorem policy_info_appends (ext : Collab) (cs : ConversationState) (s : AgentState) :
    ∃ r, ((_policy_info_node ext cs s).2).messages =
      s.messages ++ [{ role := "assistant", content := r }] :=
  ⟨_, rfl⟩

theorem policy_info_stage (ext : Collab) (cs : ConversationState) (s : AgentState) :
    ((_policy_info_node ext cs s).2).conversation_stage = "conditions_check" := rfl

theorem conditions_check_appends (ext : Collab) (db : Database)
    (cs : ConversationState) (s : AgentState) :
    ∃ r, ((_conditions_check_node ext db cs s).2).messages =
      s.messages ++ [{ role := "assistant", content := r }] := by
  unfold _conditions_check_node
  cases _extract_customer_id (lastContent s.messages) with
  | none => exact ⟨_, rfl⟩
  | some cid =>
    dsimp only
    split
    · exact ⟨_, rfl⟩
    · exact ⟨_, rfl⟩

theorem conditions_check_stage (ext : Collab) (db : Database)
    (cs : ConversationState) (s : AgentState) :
    ((_conditions_check_node ext db cs s).2).conversation_stage = "conditions_check" ∨
    ((_conditions_check_node ext db cs s).2).conversation_stage = "order_selection" := by
  unfold _conditions_check_node
  cases _extract_customer_id (lastContent s.messages) with
  | none => left; rfl
  | some cid =>
    dsimp only
    split
    · right; rfl
    · left; rfl

theorem order_selection_appends (ext : Collab) (db : Database)
    (cs : ConversationState) (s : AgentState) :
    ∃ r, ((_order_selection_node ext db cs s).2).messages =
      s.messages ++ [{ role := "assistant", content := r }] := by
  unfold _order_selection_node
  split
  · exact ⟨_, rfl⟩
  · exact ⟨_, rfl⟩

theorem order_selection_stage (ext : Collab) (db : Database)
    (cs : ConversationState) (s : AgentState) :
    ((_order_selection_node ext db cs s).2).conversation_stage = "confirmation" := by
  unfold _order_selection_node
  split
  · rfl
  · rfl

theorem confirmation_ok_appends (ext : Collab) (db : Database)
    (cs : ConversationState) (s : AgentState) (db1 : Database)
    (cs1 : ConversationState) (s1 : AgentState)
    (h : _confirmation_node ext db cs s = (db1, cs1, Except.ok s1)) :
    ∃ r, s1.messages = s.messages ++ [{ role := "assistant", content := r }] := by
  unfold _confirmation_node at h
  cases hE : _extract_order_id ext db (lastContent s.messages) s.customer_id with
  | none =>
    rw [hE] at h
    dsimp only at h
    simp only [Prod.mk.injEq, Except.ok.injEq] at h
    exact ⟨_, by rw [← h.2.2]⟩
  | some oid =>
    rw [hE] at h
    dsimp only at h
    cases hU : _update_order_status ext db oid "returned" with
    | mk db2 ok =>
      rw [hU] at h
      cases ok with
      | false =>
        dsimp only at h
        simp only [Prod.mk.injEq, Except.ok.injEq] at h
        exact ⟨_, by rw [← h.2.2]⟩
      | true =>
        dsimp only at h
        cases hS : _get_order_summary ext db2 oid with
        | none =>
          rw [hS] at h
          exact absurd (congrArg (fun t => t.2.2) h) (by simp)
        | some os =>
          rw [hS] at h
          dsimp only at h
          simp only [Prod.mk.injEq, Except.ok.injEq] at h
          exact ⟨_, by rw [← h.2.2]⟩

theorem confirmation_ok_stage (ext : Collab) (db : Database)
    (cs : ConversationState) (s : AgentState) (db1 : Database)
    (cs1 : ConversationState) (s1 : AgentState)
    (h : _confirmation_node ext db cs s = (db1, cs1, Except.ok s1)) :
    s1.conversation_stage = "completion" ∨
    s1.conversation_stage = "order_selection" ∨
    s1.conversation_stage = "confirmation" := by
  unfold _confirmation_node at h
  cases hE : _extract_order_id ext db (lastContent s.messages) s.customer_id with
  | none =>
    rw [hE] at h
    dsimp only at h
    simp only [Prod.mk.injEq, Except.ok.injEq] at h
    right; right; rw [← h.2.2]
  | some oid =>
    rw [hE] at h
    dsimp only at h
    cases hU : _update_order_status ext db oid "returned" with
    | mk db2 ok =>
      rw [hU] at h
      cases ok with
      | false =>
        dsimp only at h
        simp only [Prod.mk.injEq, Except.ok.injEq] at h
        right; left; rw [← h.2.2]
      | true =>
        dsimp only at h
        cases hS : _get_order_summary ext db2 oid with
        | none =>
          rw [hS] at h
          exact absurd (congrArg (fun t => t.2.2) h) (by simp)
        | some os =>
          rw [hS] at h
          dsimp only at h
          simp only [Prod.mk.injEq, Except.ok.injEq] at h
          left; rw [← h.2.2]

theorem completion_appends (s : AgentState) :
    ∃ r, (_completion_node s).messages =
      s.messages ++ [{ role := "assistant", content := r }] :=
  ⟨_, rfl⟩

theorem completion_stage (s : AgentState) :
    (_completion_node s).conversation_stage = "completion" := rfl

theorem exceptOk_eq_some {α : Type} (x : Except String α) (a : α) :
    exceptOk x = some a ↔ x = Except.ok a := by
  cases x <;> simp [exceptOk]

/-- A normally terminating graph invocation appends exactly six assistant
messages, one per node, and ends with the stage completion. -/
theorem runPipeline_ok (ext : Collab) (db : Database) (cs : ConversationState)
    (s : AgentState) (db1 : Database) (cs1 : ConversationState) (s1 : AgentState)
    (h : runPipeline ext db cs s = (db1, cs1, Except.ok s1)) :
    (∃ r1 r2 r3 r4 r5 r6, s1.messages = s.messages ++
      [{ role := "assistant", content := r1 }, { role := "assistant", content := r2 },
       { role := "assistant", content := r3 }, { role := "assistant", content := r4 },
       { role := "assistant", content := r5 }, { role := "assistant", content := r6 }]) ∧
    s1.conversation_stage = "completion" := by
  unfold runPipeline at h
  cases hG : _greeting_node cs s with
  | mk csa sa =>
  rw [hG] at h
  dsimp only at h
  cases hP : _policy_info_node ext csa sa with
  | mk csb sb =>
  rw [hP] at h
  dsimp only at h
  cases hC : _conditions_check_node ext db csb sb with
  | mk csc sc =>
  rw [hC] at h
  dsimp only at h
  cases hO : _order_selection_node ext db csc sc with
  | mk csd sd =>
  rw [hO] at h
  dsimp only at h
  cases hF : _confirmation_node ext db csd sd with
  | mk db5 rest =>
  cases rest with
  | mk cs5 r =>
  rw [hF] at h
  cases r with
  | error e =>
    dsimp only at h
    exact absurd (congrArg (fun t => t.2.2) h) (by simp)
  | ok s5 =>
    dsimp only at h
    simp only [Prod.mk.injEq, Except.ok.injEq] at h
    obtain ⟨-, -, hs1⟩ := h
    obtain ⟨r1, e1⟩ := greeting_appends cs s
    rw [hG] at e1
    obtain ⟨r2, e2⟩ := policy_info_appends ext csa sa
    rw [hP] at e2
    obtain ⟨r3, e3⟩ := conditions_check_appends ext db csb sb
    rw [hC] at e3
    obtain ⟨r4, e4⟩ := order_selection_appends ext db csc sc
    rw [hO] at e4
    obtain ⟨r5, e5⟩ := confirmation_ok_appends ext db csd sd db5 cs5 s5 hF
    constructor
    · refine ⟨r1, r2, r3, r4, r5, completionResponse, ?_⟩
      rw [← hs1]
      show (_completion_node s5).messages = _
      have e6 : (_completion_node s5).messages =
          s5.messages ++ [{ role := "assistant", content := completionResponse }] := rfl
      rw [e6, e5, e4, e3, e2, e1]
      simp
    · rw [← hs1]
      exact completion_stage s5

/-- The empty database: no customers, orders, items or payments. -/
def dbEmpty : Database :=
  { customers := [], orders := [], order_items := [], order_payments := [],
    update_log := [] }

/-- A state whose last message names an order id absent from the store. -/
def stateLongOrderToken : AgentState :=
  { messages := [{ role := "user", content := "please return order ABCDEFGHIJKLMNOPQRSTU0123 now" }],
    customer_id := none, current_order_id := none, return_conditions_met := false,
    conversation_stage := "confirmation" }

/-- C1: for every confirmed return of an order id the workflow is claimed to
check existence first, never take the update path for a nonexistent id, and
report a not-found condition. The code does the opposite: on the explicit
input below, whose order id exists nowhere in the store, the confirmation
node executes the UPDATE (ghost log grows, update reports success), stores
the order id into the persistent state, and then raises KeyError while
reading the empty order summary instead of reporting not-found. -/
theorem C1_nonexistent_order_update_then_keyerror :
    dbEmpty.orders = [] ∧
    (_confirmation_node extDefault dbEmpty initialConversationState stateLongOrderToken).1.update_log =
      [("returned", "ABCDEFGHIJKLMNOPQRSTU0123")] ∧
    (_confirmation_node extDefault dbEmpty initialConversationState stateLongOrderToken).2.1.current_order_id =
      some "ABCDEFGHIJKLMNOPQRSTU0123" ∧
    (_confirmation_node extDefault dbEmpty initialConversationState stateLongOrderToken).2.2 =
      Except.error "KeyError: \x27order_id\x27" := by decide

/-- An order row whose purchase timestamp is itself a long alphanumeric
token, so the heuristic order-id extraction picks it up from the listing. -/
def dbOddTimestamp : Database :=
  { customers := ["custabc12345"],
    orders := [{ order_id := "o1", customer_id := "custabc12345",
                 order_purchase_timestamp := "TS0000000000000000000001",
                 order_status := "delivered" }],
    order_items := [], order_payments := [], update_log := [] }

/-- Persistent state carrying a known customer id from an earlier turn. -/
def csCustomerKnown : ConversationState :=
  { stage := "completion", customer_id := some "custabc12345",
    current_order_id := none, return_conditions_met := false }

/-- C3 counterexample: a call of process_message on which the confirmation
node raises KeyError, so the call aborts with no result, fewer than six
appended turns, and a persisted stage that is not completion. -/
theorem C3_counterexample_keyerror_aborts_call :
    (process_message extDefault dbOddTimestamp csCustomerKnown "I want to return my order" []).2.2 =
      Except.error "KeyError: \x27order_id\x27" ∧
    (process_message extDefault dbOddTimestamp csCustomerKnown "I want to return my order" []).2.1.stage ≠
      "completion" := by decide

/-- C3: whatever the persisted stage at entry, the graph always runs the six
nodes in the fixed linear order starting at greeting; when the call
terminates normally the history is the input history, then the incoming user
turn, then exactly six assistant turns, and the persisted stage is
completion. (The counterexample shows the KeyError abort is the one
exception.) -/
theorem C3_six_turns_and_completion (ext : Collab) (db : Database)
    (cs : ConversationState) (msg : String) (hist : List Msg) (db1 : Database)
    (cs1 : ConversationState) (res : ProcessResult)
    (h : process_message ext db cs msg hist = (db1, cs1, Except.ok res)) :
    res.conversation_history.length = hist.length + 7 ∧
    res.conversation_history.take (hist.length + 1) =
      hist ++ [{ role := "user", content := msg }] ∧
    (∀ m ∈ res.conversation_history.drop (hist.length + 1), m.role = "assistant") ∧
    cs1.stage = "completion" := by
  unfold process_message at h
  cases hR : runPipeline ext db cs (initState cs msg hist) with
  | mk dbx rest =>
  cases rest with
  | mk csx r =>
  rw [hR] at h
  cases r with
  | error e =>
    dsimp only at h
    exact absurd (congrArg (fun t => t.2.2) h) (by simp)
  | ok s1 =>
    dsimp only at h
    simp only [Prod.mk.injEq, Except.ok.injEq] at h
    obtain ⟨h1, h2, h3⟩ := h
    subst h2
    subst h3
    obtain ⟨⟨r1, r2, r3, r4, r5, r6, hm⟩, hstage⟩ :=
      runPipeline_ok ext db cs (initState cs msg hist) dbx csx s1 hR
    have hinit : (initState cs msg hist).messages =
        hist ++ [{ role := "user", content := msg }] := rfl
    rw [hinit] at hm
    have hlen : hist.length + 1 =
        (hist ++ [({ role := "user", content := msg } : Msg)]).length := by
      simp
    refine ⟨?_, ?_, ?_, ?_⟩
    · show s1.messages.length = hist.length + 7
      rw [hm]
      simp
    · show s1.messages.take (hist.length + 1) = _
      rw [hm, hlen]
      exact List.take_left _ _
    · show ∀ m ∈ s1.messages.drop (hist.length + 1), m.role = "assistant"
      rw [hm, hlen, List.drop_left]
      intro m hmem
      simp only [List.mem_cons, List.not_mem_nil, or_false] at hmem
      rcases hmem with rfl | rfl | rfl | rfl | rfl | rfl <;> rfl
    · exact hstage

/-- A state carrying only a plain user message. -/
def stateHello : AgentState :=
  { messages := [{ role := "user", content := "hello" }], customer_id := none,
    current_order_id := none, return_conditions_met := false,
    conversation_stage := "greeting" }

/-- C3 witness: a concrete normally terminating call reaches the completion
stage. -/
theorem C3_witness :
    (process_message extDefault dbEmpty initialConversationState "hello" []).2.1.stage =
      "completion" := by
  have hsome : (exceptOk (process_message extDefault dbEmpty initialConversationState "hello" []).2.2).isSome = true := by
    decide
  obtain ⟨res, hres⟩ := Option.isSome_iff_exists.mp hsome
  have h : process_message extDefault dbEmpty initialConversationState "hello" [] =
      ((process_message extDefault dbEmpty initialConversationState "hello" []).1,
       (process_message extDefault dbEmpty initialConversationState "hello" []).2.1,
       Except.ok res) := by
    rw [← (exceptOk_eq_some _ res).mp hres]
  exact (C3_six_turns_and_completion extDefault dbEmpty initialConversationState "hello" []
    _ _ res h).2.2.2

/-- A state persisted at the completion stage, as left by a finished return. -/
def stateDoneHello : AgentState :=
  { messages := [{ role := "user", content := "hello" }], customer_id := none,
    current_order_id := none, return_conditions_met := false,
    conversation_stage := "completion" }

/-- C4 counterexample: the greeting node runs on every call and writes the
stage back to greeting from any entry value; from completion this is a
backward move to a value that is neither of the two backward targets the
claim allows. -/
theorem C4_counterexample_greeting_resets_stage :
    ((_greeting_node { initialConversationState with stage := "completion" } stateDoneHello).2).conversation_stage =
      "greeting" ∧
    ¬ stageForwardOrAllowedBack stateDoneHello.conversation_stage
      ((_greeting_node { initialConversationState with stage := "completion" } stateDoneHello).2).conversation_stage := by
  decide

/-- C4: the stage values each node can write. Relative to the node positions
the flow is forward except the confirmation node's failed-update write of
order_selection and the conditions-check self-write; the order-selection node
always exits at confirmation because its conditions_check write is
overwritten; and the greeting node restarts the machine at greeting or
policy_info regardless of the entry stage (the backward move of the
counterexample). -/
theorem C4_stage_write_characterization (ext : Collab) (db : Database)
    (cs : ConversationState) (s : AgentState) (db1 : Database)
    (cs1 : ConversationState) (s1 : AgentState)
    (h : _confirmation_node ext db cs s = (db1, cs1, Except.ok s1)) :
    (((_greeting_node cs s).2).conversation_stage = "greeting" ∨
     ((_greeting_node cs s).2).conversation_stage = "policy_info") ∧
    ((_policy_info_node ext cs s).2).conversation_stage = "conditions_check" ∧
    (((_conditions_check_node ext db cs s).2).conversation_stage = "conditions_check" ∨
     ((_conditions_check_node ext db cs s).2).conversation_stage = "order_selection") ∧
    ((_order_selection_node ext db cs s).2).conversation_stage = "confirmation" ∧
    (s1.conversation_stage = "completion" ∨
     s1.conversation_stage = "order_selection" ∨
     s1.conversation_stage = "confirmation") ∧
    (_completion_node s).conversation_stage = "completion" :=
  ⟨greeting_stage cs s, policy_info_stage ext cs s, conditions_check_stage ext db cs s,
   order_selection_stage ext db cs s, confirmation_ok_stage ext db cs s db1 cs1 s1 h,
   completion_stage s⟩

/-- C4 witness: the characterization applied at a concrete normally
terminating confirmation. -/
theorem C4_witness :
    ((_order_selection_node extDefault dbEmpty initialConversationState stateHello).2).conversation_stage =
      "confirmation" := by
  have hsome : (exceptOk (_confirmation_node extDefault dbEmpty initialConversationState stateHello).2.2).isSome = true := by
    decide
  obtain ⟨s1, hs⟩ := Option.isSome_iff_exists.mp hsome
  have h : _confirmation_node extDefault dbEmpty initialConversationState stateHello =
      ((_confirmation_node extDefault dbEmpty initialConversationState stateHello).1,
       (_confirmation_node extDefault dbEmpty initialConversationState stateHello).2.1,
       Except.ok s1) := by
    rw [← (exceptOk_eq_some _ s1).mp hs]
  exact (C4_stage_write_characterization extDefault dbEmpty initialConversationState stateHello
    _ _ s1 h).2.2.2.1

/-- The Collab oracle in which the policy retrieval or generation raises. -/
def extPolicyFail : Collab :=
  { extDefault with pdf_available := true, policy_exn := true }

/-- C5 counterexample: a turn during which an external collaborator call
fails (the policy retrieval raises) does not fail atomically: it is caught
inside the node, the turn completes normally, seven messages stand in the
history and the persisted stage has advanced to completion. -/
theorem C5_counterexample_failure_turn_completes :
    extPolicyFail.policy_exn = true ∧
    ((exceptOk (process_message extPolicyFail dbEmpty initialConversationState "I want to return my order" []).2.2).map
      fun r => r.conversation_history.length) = some 7 ∧
    (process_message extPolicyFail dbEmpty initialConversationState "I want to return my order" []).2.1.stage =
      "completion" := by decide

/-- The Collab oracle in which the customer lookup raises. -/
def extLookupFail : Collab := { extDefault with customer_exn := true }

/-- A state whose last message carries a plausible customer id token. -/
def stateWithCustomerToken : AgentState :=
  { messages := [{ role := "user", content := "my id is custabc12345 ok" }],
    customer_id := none, current_order_id := none, return_conditions_met := false,
    conversation_stage := "conditions_check" }

/-- C7 counterexample: a tool-result turn does not survive the conversion
layer at all - it is dropped, not returned byte-identical. -/
theorem C7_counterexample_tool_result_dropped :
    roundTrip [{ role := "tool-result", content := "rows: 3", timestamp := none }] = [] ∧
    ([] : List ChatMessage) ≠
      [{ role := "tool-result", content := "rows: 3", timestamp := none }] := by decide

/-- C7: the round trip through the conversion layer is the identity on role
and content exactly for the user and assistant roles (with the timestamp
reset to None); every other role, including tool-result, is silently
dropped. -/
theorem C7_roundtrip_user_assistant_only (m : ChatMessage) :
    roundTrip [m] =
      if m.role == "user" || m.role == "assistant" then
        [{ role := m.role, content := m.content, timestamp := none }]
      else [] := by
  by_cases h1 : m.role = "user"
  · simp [roundTrip, convert_messages_to_langchain, convert_langchain_to_messages, h1]
  · by_cases h2 : m.role = "assistant"
    · simp [roundTrip, convert_messages_to_langchain, convert_langchain_to_messages, h1, h2]
    · simp [roundTrip, convert_messages_to_langchain, convert_langchain_to_messages, h1, h2]

/-- C8 counterexample: on the KeyError path the confirmation node terminates
abnormally and appends no assistant turn at all, so it is not true that every
node execution appends exactly one. -/
theorem C8_counterexample_error_appends_nothing :
    ¬ appendsOneAssistantOk stateLongOrderToken.messages
      (_confirmation_node extDefault dbEmpty initialConversationState stateLongOrderToken).2.2 := by
  intro hA
  obtain ⟨resp, s1, hok, -⟩ := hA
  rw [show (_confirmation_node extDefault dbEmpty initialConversationState stateLongOrderToken).2.2 =
      Except.error "KeyError: \x27order_id\x27" from by decide] at hok
  exact absurd hok (by simp)

/-- C8: every node that terminates normally appends exactly one assistant
turn after the unchanged previous messages; the confirmation node does so
only on its normal returns (the counterexample is its KeyError path). -/
theorem C8_each_node_appends_one (ext : Collab) (db : Database)
    (cs : ConversationState) (s : AgentState) (db1 : Database)
    (cs1 : ConversationState) (s1 : AgentState)
    (h : _confirmation_node ext db cs s = (db1, cs1, Except.ok s1)) :
    (∃ r, ((_greeting_node cs s).2).messages =
      s.messages ++ [{ role := "assistant", content := r }]) ∧
    (∃ r, ((_policy_info_node ext cs s).2).messages =
      s.messages ++ [{ role := "assistant", content := r }]) ∧
    (∃ r, ((_conditions_check_node ext db cs s).2).messages =
      s.messages ++ [{ role := "assistant", content := r }]) ∧
    (∃ r, ((_order_selection_node ext db cs s).2).messages =
      s.messages ++ [{ role := "assistant", content := r }]) ∧
    (∃ r, s1.messages = s.messages ++ [{ role := "assistant", content := r }]) ∧
    (∃ r, (_completion_node s).messages =
      s.messages ++ [{ role := "assistant", content := r }]) :=
  ⟨greeting_appends cs s, policy_info_appends ext cs s, conditions_check_appends ext db cs s,
   order_selection_appends ext db cs s, confirmation_ok_appends ext db cs s db1 cs1 s1 h,
   completion_appends s⟩

/-- C8 witness: the append property applied at a concrete normally
terminating confirmation. -/
theorem C8_witness :
    ∃ r, ((_greeting_node initialConversationState stateHello).2).messages =
      stateHello.messages ++ [{ role := "assistant", content := r }] := by
  have hsome : (exceptOk (_confirmation_node extDefault dbEmpty initialConversationState stateHello).2.2).isSome = true := by
    decide
  obtain ⟨s1, hs⟩ := Option.isSome_iff_exists.mp hsome
  have h : _confirmation_node extDefault dbEmpty initialConversationState stateHello =
      ((_confirmation_node extDefault dbEmpty initialConversationState stateHello).1,
       (_confirmation_node extDefault dbEmpty initialConversationState stateHello).2.1,
       Except.ok s1) := by
    rw [← (exceptOk_eq_some _ s1).mp hs]
  exact (C8_each_node_appends_one extDefault dbEmpty initialConversationState stateHello
    _ _ s1 h).1

/-- C9: the validated routing decision always lies in the closed label set,
and any raw label outside the set is normalized to none. -/
theorem C9_router_validates_closed_set (raw : String) :
    validateRoutingDecision raw ∈ routingLabels ∧
    (raw ∉ routingLabels → validateRoutingDecision raw = "none") := by
  unfold validateRoutingDecision
  by_cases h : raw ∈ routingLabels
  · rw [if_pos h]
    exact ⟨h, fun hn => absurd h hn⟩
  · rw [if_neg h]
    exact ⟨by simp [routingLabels], fun _ => rfl⟩

/-- C9 witness: the unexpected label general is normalized to none. -/
theorem C9_witness : validateRoutingDecision "general" = "none" :=
  (C9_router_validates_closed_set "general").2 (by decide)

/-- A customer-id token in the sense of the extraction heuristic: length
strictly greater than 10 and alphanumeric. -/
def isCustomerIdToken (w : String) : Prop :=
  10 < w.length ∧ pyIsAlnum w = true

instance (w : String) : Decidable (isCustomerIdToken w) := by
  unfold isCustomerIdToken; infer_instance

/-- The extraction loop returns the first token satisfying the heuristic. -/
theorem customerWordLoop_some_spec (l : List String) (w : String)
    (h : customerWordLoop l = some w) :
    ∃ l1 l2, l = l1 ++ w :: l2 ∧ isCustomerIdToken w ∧
      ∀ u ∈ l1, ¬ isCustomerIdToken u := by
  induction l with
  | nil => simp [customerWordLoop] at h
  | cons x xs ih =>
    unfold customerWordLoop at h
    by_cases hx : (x.length > 10 && pyIsAlnum x) = true
    · rw [if_pos hx] at h
      obtain rfl : x = w := Option.some.inj h
      refine ⟨[], xs, rfl, ?_, by simp⟩
      simpa [isCustomerIdToken, Bool.and_eq_true, decide_eq_true_eq] using hx
    · rw [if_neg hx] at h
      obtain ⟨l1, l2, hl, hw, hall⟩ := ih h
      refine ⟨x :: l1, l2, by rw [hl]; rfl, hw, ?_⟩
      intro u hu
      rcases List.mem_cons.mp hu with rfl | hu1
      · simpa [isCustomerIdToken, Bool.and_eq_true, decide_eq_true_eq] using hx
      · exact hall u hu1

/-- The extraction loop returns none exactly when no token satisfies the
heuristic. -/
theorem customerWordLoop_none_spec (l : List String) :
    customerWordLoop l = none ↔ ∀ u ∈ l, ¬ isCustomerIdToken u := by
  induction l with
  | nil => simp [customerWordLoop]
  | cons x xs ih =>
    unfold customerWordLoop
    by_cases hx : (x.length > 10 && pyIsAlnum x) = true
    · rw [if_pos hx]
      constructor
      · intro h
        cases h
      · intro hall
        exact ((hall x (List.mem_cons_self x xs))
          (by simpa [isCustomerIdToken, Bool.and_eq_true, decide_eq_true_eq] using hx)).elim
    · rw [if_neg hx]
      rw [ih]
      constructor
      · intro hall u hu
        rcases List.mem_cons.mp hu with rfl | hu1
        · simpa [isCustomerIdToken, Bool.and_eq_true, decide_eq_true_eq] using hx
        · exact hall u hu1
      · intro hall u hu
        exact hall u (List.mem_cons_of_mem x hu)

/-- C10: for every message, the customer-id extraction returns some w exactly
when w is the first whitespace token of the message longer than 10
characters and alphanumeric, and none exactly when no token qualifies. -/
theorem C10_extract_first_long_alnum_token (msg : String) :
    (∀ w, _extract_customer_id msg = some w →
      ∃ l1 l2, pySplit msg = l1 ++ w :: l2 ∧ isCustomerIdToken w ∧
        ∀ u ∈ l1, ¬ isCustomerIdToken u) ∧
    (_extract_customer_id msg = none ↔
      ∀ u ∈ pySplit msg, ¬ isCustomerIdToken u) := by
  constructor
  · intro w h
    exact customerWordLoop_some_spec (pySplit msg) w h
  · exact customerWordLoop_none_spec (pySplit msg)

/-- C10 witness: the characterization applied at a concrete message. -/
theorem C10_witness :
    ∃ l1 l2, pySplit "my customer id is abcdefghijk12 thanks" =
      l1 ++ "abcdefghijk12" :: l2 ∧ isCustomerIdToken "abcdefghijk12" ∧
      ∀ u ∈ l1, ¬ isCustomerIdToken u :=
  (C10_extract_first_long_alnum_token "my customer id is abcdefghijk12 thanks").1
    "abcdefghijk12" (by decide)

/-- Applying the UPDATE row transformer twice is the same as applying it
once. -/
theorem updF_idem (oid st : String) (o : OrderRow) :
    updF oid st (updF oid st o) = updF oid st o := by
  unfold updF
  by_cases h : (o.order_id == oid) = true
  · rw [if_pos h]
    dsimp only
    rw [if_pos h]
  · rw [if_neg h, if_neg h]

/-- Mapping the UPDATE row transformer twice over the orders table is the
same as mapping it once: re-running the same status UPDATE does not change
the table further. -/
theorem map_updF_idem (l : List OrderRow) (oid st : String) :
    (l.map (updF oid st)).map (updF oid st) = l.map (updF oid st) := by
  induction l with
  | nil => rfl
  | cons o os ih =>
    simp only [List.map_cons]
    rw [updF_idem, ih]

/-- An order id present in the table is still present after the UPDATE. -/
theorem mem_map_updF (l : List OrderRow) (oid st : String)
    (hex : ∃ o ∈ l, o.order_id = oid) :
    ∃ o ∈ l.map (updF oid st), o.order_id = oid := by
  obtain ⟨o, ho, hid⟩ := hex
  refine ⟨updF oid st o, List.mem_map_of_mem _ ho, ?_⟩
  unfold updF
  split
  · exact hid
  · exact hid

/-- find? by order id succeeds when a row with that id is in the table. -/
theorem find?_id_some (l : List OrderRow) (oid : String)
    (hex : ∃ o ∈ l, o.order_id = oid) :
    ∃ o1, l.find? (fun o => o.order_id == oid) = some o1 := by
  have hs : (l.find? (fun o => o.order_id == oid)).isSome = true := by
    rw [List.find?_isSome]
    obtain ⟨o, ho, hid⟩ := hex
    exact ⟨o, ho, by simp [hid]⟩
  exact Option.isSome_iff_exists.mp hs

/-- The database after one UPDATE of an order status: the rows rewritten and
the ghost log extended. -/
def dbAfterUpdate (db : Database) (oid st : String) : Database :=
  { db with
      orders := db.orders.map (updF oid st),
      update_log := db.update_log ++ [(st, oid)] }

/-- The UPDATE helper on a non-raising oracle returns the rewritten database
and success. -/
theorem update_order_status_eq (ext : Collab) (db : Database) (oid st : String)
    (hupd : ext.update_exn = false) :
    _update_order_status ext db oid st = (dbAfterUpdate db oid st, true) := by
  unfold _update_order_status dbAfterUpdate
  rw [hupd]
  rw [if_neg (by simp)]

/-- The order summary is a dict (not empty) whenever the summary query does
not raise and the order row exists. -/
theorem get_order_summary_some (ext : Collab) (db : Database) (oid : String)
    (hs : ext.summary_exn = false) (hex : ∃ o ∈ db.orders, o.order_id = oid) :
    ∃ os, _get_order_summary ext db oid = some os := by
  unfold _get_order_summary
  rw [hs]
  obtain ⟨o1, hfind⟩ := find?_id_some db.orders oid hex
  rw [if_neg (by simp)]
  rw [hfind]
  exact ⟨_, rfl⟩

/-- The last element of a history after appending one message. -/
theorem lastContent_append_one (l : List Msg) (m : Msg) :
    lastContent (l ++ [m]) = m.content := by
  unfold lastContent
  rw [List.getLastD_concat]

/-- The confirmation node on the success path, written as one equation. -/
theorem confirmation_success_eq (ext : Collab) (db : Database)
    (cs : ConversationState) (s : AgentState) (oid : String) (os : OrderSummary)
    (hid : _extract_order_id ext db (lastContent s.messages) s.customer_id = some oid)
    (hupd : ext.update_exn = false)
    (hsum : _get_order_summary ext (dbAfterUpdate db oid "returned") oid = some os) :
    _confirmation_node ext db cs s =
      (dbAfterUpdate db oid "returned",
       { cs with current_order_id := some oid, stage := "completion" },
       Except.ok { s with
          current_order_id := some oid,
          conversation_stage := "completion",
          messages := s.messages ++
            [{ role := "assistant",
               content := confirmSuccessResponse oid
                 (_get_order_payment_info ext (dbAfterUpdate db oid "returned") oid) os }] }) := by
  unfold _confirmation_node
  rw [hid]
  dsimp only
  rw [update_order_status_eq ext db oid "returned" hupd]
  dsimp only
  rw [hsum]

/-- C2: what re-running the confirmation with the same order id actually
does. Both runs take the success path: the second run issues a further
UPDATE (the ghost write log grows by one more entry) and reports the
success wording again - no already-returned report exists in the code. The
re-write is idempotent only in value: the orders table is unchanged by the
second write. -/
theorem C2_second_run_rewrites_idempotent_value (ext : Collab) (db : Database)
    (cs cs2 : ConversationState) (s : AgentState) (oid : String)
    (hupd : ext.update_exn = false) (hsum : ext.summary_exn = false)
    (hex : ∃ o ∈ db.orders, o.order_id = oid)
    (hid1 : _extract_order_id ext db (lastContent s.messages) s.customer_id = some oid)
    (hid2 : _extract_order_id ext (_confirmation_node ext db cs s).1
      (lastContent s.messages) s.customer_id = some oid) :
    (_confirmation_node ext (_confirmation_node ext db cs s).1 cs2 s).1.orders =
      (_confirmation_node ext db cs s).1.orders ∧
    (_confirmation_node ext (_confirmation_node ext db cs s).1 cs2 s).1.update_log =
      (_confirmation_node ext db cs s).1.update_log ++ [("returned", oid)] ∧
    (∃ p os s2,
      (_confirmation_node ext (_confirmation_node ext db cs s).1 cs2 s).2.2 = Except.ok s2 ∧
      s2.conversation_stage = "completion" ∧
      lastContent s2.messages = confirmSuccessResponse oid p os) := by
  obtain ⟨os1, hs1⟩ := get_order_summary_some ext (dbAfterUpdate db oid "returned") oid hsum
    (mem_map_updF db.orders oid "returned" hex)
  have hc1 := confirmation_success_eq ext db cs s oid os1 hid1 hupd hs1
  rw [hc1] at hid2
  dsimp only at hid2
  obtain ⟨os2, hs2⟩ := get_order_summary_some ext
    (dbAfterUpdate (dbAfterUpdate db oid "returned") oid "returned") oid hsum
    (mem_map_updF _ oid "returned" (mem_map_updF db.orders oid "returned" hex))
  have hc2 := confirmation_success_eq ext (dbAfterUpdate db oid "returned") cs2 s oid os2
    hid2 hupd hs2
  rw [hc1, hc2]
  refine ⟨?_, ?_, ?_⟩
  · exact map_updF_idem db.orders oid "returned"
  · rfl
  · refine ⟨_get_order_payment_info ext
      (dbAfterUpdate (dbAfterUpdate db oid "returned") oid "returned") oid, os2, _,
      rfl, rfl, ?_⟩
    exact lastContent_append_one _ _

/-- A store with one delivered order whose id is a long alphanumeric token. -/
def dbOneLongOrder : Database :=
  { customers := ["custabc12345"],
    orders := [{ order_id := "ORDERAAAAAAAAAAAAAAAA0001", customer_id := "custabc12345",
                 order_purchase_timestamp := "2017-01-01 00:00:00",
                 order_status := "delivered" }],
    order_items := [], order_payments := [], update_log := [] }

/-- A state whose last message names that order id. -/
def stateNamingLongOrder : AgentState :=
  { messages := [{ role := "user", content := "return ORDERAAAAAAAAAAAAAAAA0001" }],
    customer_id := some "custabc12345", current_order_id := none,
    return_conditions_met := false, conversation_stage := "confirmation" }

/-- C2 counterexample: a second run of the confirmation with the same order
id issues a second UPDATE (the ghost write log holds two entries) and again
reports the success wording, not an already-returned condition. -/
theorem C2_counterexample_second_confirmation_rewrites :
    (_confirmation_node extDefault dbOneLongOrder initialConversationState stateNamingLongOrder).1.update_log =
      [("returned", "ORDERAAAAAAAAAAAAAAAA0001")] ∧
    (_confirmation_node extDefault
      (_confirmation_node extDefault dbOneLongOrder initialConversationState stateNamingLongOrder).1
      initialConversationState stateNamingLongOrder).1.update_log =
      [("returned", "ORDERAAAAAAAAAAAAAAAA0001"), ("returned", "ORDERAAAAAAAAAAAAAAAA0001")] ∧
    ((exceptOk (_confirmation_node extDefault
      (_confirmation_node extDefault dbOneLongOrder initialConversationState stateNamingLongOrder).1
      initialConversationState stateNamingLongOrder).2.2).map
        fun s2 => s2.conversation_stage) = some "completion" ∧
    ((exceptOk (_confirmation_node extDefault
      (_confirmation_node extDefault dbOneLongOrder initialConversationState stateNamingLongOrder).1
      initialConversationState stateNamingLongOrder).2.2).map
        fun s2 => lastContent s2.messages) =
      some (confirmSuccessResponse "ORDERAAAAAAAAAAAAAAAA0001" none
        { order_id := "ORDERAAAAAAAAAAAAAAAA0001", order_status := "returned",
          order_purchase_timestamp := "2017-01-01 00:00:00", item_count := 0 }) := by decide

/-- C2 witness: the second-run equation applied at a concrete store and
message. -/
theorem C2_witness :
    (_confirmation_node extDefault
      (_confirmation_node extDefault dbOneLongOrder initialConversationState stateNamingLongOrder).1
      csCustomerKnown stateNamingLongOrder).1.update_log =
      (_confirmation_node extDefault dbOneLongOrder initialConversationState stateNamingLongOrder).1.update_log ++
        [("returned", "ORDERAAAAAAAAAAAAAAAA0001")] :=
  (C2_second_run_rewrites_idempotent_value extDefault dbOneLongOrder
    initialConversationState csCustomerKnown stateNamingLongOrder
    "ORDERAAAAAAAAAAAAAAAA0001" rfl rfl (by decide) (by decide) (by decide)).2.1

/-- A store with one order whose fields carry no long alphanumeric token. -/
def dbOneOrder : Database :=
  { customers := ["custabc12345"],
    orders := [{ order_id := "o1", customer_id := "custabc12345",
                 order_purchase_timestamp := "2017-01-01 00:00:00",
                 order_status := "delivered" }],
    order_items := [], order_payments := [], update_log := [] }

/-- A Collab oracle whose generated policy summary happens to contain a long
alphanumeric token, which the heuristic extraction then stores as the
customer id. -/
def extLlmToken : Collab :=
  { extDefault with pdf_available := true, llm_summary := "PolicyRef custabc12345" }

/-- First invocation: the customer id gets stored in the persistent state. -/
def runRetainFirst : Database × ConversationState × Except String ProcessResult :=
  process_message extLlmToken dbOneOrder initialConversationState
    "I want to return my order" []

/-- Second invocation on the persistent state left by the first. -/
def runRetainSecond : Database × ConversationState × Except String ProcessResult :=
  process_message extDefault dbOneOrder runRetainFirst.2.1
    "I want to return my order" []

/-- The same second invocation started from a fresh persistent state. -/
def runRetainFresh : Database × ConversationState × Except String ProcessResult :=
  process_message extDefault dbOneOrder initialConversationState
    "I want to return my order" []

/-- C6 counterexample: the customer id survives the first invocation inside
self.conversation_state and changes the observable output of the second
invocation (same message, same history, same store), so state other than the
conversation history is retained across invocations. -/
theorem C6_counterexample_customer_id_retained :
    runRetainFirst.2.1.customer_id = some "custabc12345" ∧
    ((exceptOk runRetainSecond.2.2).map fun r => r.conversation_history) ≠
      ((exceptOk runRetainFresh.2.2).map fun r => r.conversation_history) := by decide

/-- C6: the persistent state the agent keeps between invocations carries all
four conversation-state fields (stage, customer id, current order id,
return-conditions flag) of the final graph state, and the next invocation
reads all four back into its initial state; the conversation history itself
is not stored by the agent but passed in by the caller. -/
theorem C6_conversation_state_fields_persisted (ext : Collab) (db : Database)
    (cs : ConversationState) (msg : String) (hist : List Msg) (db1 : Database)
    (cs1 : ConversationState) (s1 : AgentState)
    (h : runPipeline ext db cs (initState cs msg hist) = (db1, cs1, Except.ok s1)) :
    (process_message ext db cs msg hist).2.1 =
      { stage := s1.conversation_stage, customer_id := s1.customer_id,
        current_order_id := s1.current_order_id,
        return_conditions_met := s1.return_conditions_met } ∧
    (initState cs msg hist).customer_id = cs.customer_id ∧
    (initState cs msg hist).current_order_id = cs.current_order_id ∧
    (initState cs msg hist).return_conditions_met = cs.return_conditions_met ∧
    (initState cs msg hist).conversation_stage = cs.stage := by
  refine ⟨?_, rfl, rfl, rfl, rfl⟩
  unfold process_message
  rw [h]

/-- C6 witness: the persistence equations applied at a concrete normally
terminating invocation. -/
theorem C6_witness :
    (initState initialConversationState "hello" []).customer_id =
      initialConversationState.customer_id := by
  have hsome : (exceptOk (runPipeline extDefault dbEmpty initialConversationState
      (initState initialConversationState "hello" [])).2.2).isSome = true := by decide
  obtain ⟨s1, hs⟩ := Option.isSome_iff_exists.mp hsome
  have h : runPipeline extDefault dbEmpty initialConversationState
      (initState initialConversationState "hello" []) =
      ((runPipeline extDefault dbEmpty initialConversationState
        (initState initialConversationState "hello" [])).1,
       (runPipeline extDefault dbEmpty initialConversationState
        (initState initialConversationState "hello" [])).2.1,
       Except.ok s1) := by
    rw [← (exceptOk_eq_some _ s1).mp hs]
  exact (C6_conversation_state_fields_persisted extDefault dbEmpty
    initialConversationState "hello" [] _ _ s1 h).2.1

/-- The Collab oracle in which the order-summary query raises. -/
def extSummaryFail : Collab := { extDefault with summary_exn := true }

/-- C5: the turn is not atomic under collaborator failure, in either
direction. A failing customer-existence lookup is caught inside
_customer_exists and converted into the not-found wording: the node appends
its turn and continues the call, with the extracted customer id already
written into the persistent state before the failing call. A caught failure
of the order-summary query, coming after a successful status UPDATE, instead
returns the empty dict and feeds the uncaught KeyError: the turn aborts with
the UPDATE already committed in the store and the extracted order id already
persisted. In neither case are history and persisted state rolled back. -/
theorem C5_caught_failures_not_atomic (ext1 ext2 : Collab) (db1 db2 : Database)
    (cs1 cs2 : ConversationState) (s1 s2 : AgentState) (cid oid : String)
    (hexn1 : ext1.customer_exn = true)
    (hcid : _extract_customer_id (lastContent s1.messages) = some cid)
    (hexn2 : ext2.summary_exn = true)
    (hupd2 : ext2.update_exn = false)
    (hoid : _extract_order_id ext2 db2 (lastContent s2.messages) s2.customer_id = some oid) :
    (((_conditions_check_node ext1 db1 cs1 s1).1).customer_id = some cid ∧
     ((_conditions_check_node ext1 db1 cs1 s1).2).messages =
       s1.messages ++ [{ role := "assistant", content := customerNotFoundResponse }] ∧
     ((_conditions_check_node ext1 db1 cs1 s1).2).conversation_stage = "conditions_check") ∧
    ((_confirmation_node ext2 db2 cs2 s2).2.2 = Except.error "KeyError: \x27order_id\x27" ∧
     (_confirmation_node ext2 db2 cs2 s2).1.update_log =
       db2.update_log ++ [("returned", oid)] ∧
     (_confirmation_node ext2 db2 cs2 s2).2.1.current_order_id = some oid) := by
  constructor
  · unfold _conditions_check_node
    rw [hcid]
    have hce : _customer_exists ext1 db1 cid = false := by
      simp [_customer_exists, hexn1]
    dsimp only
    rw [hce]
    simp
  · have hs : _get_order_summary ext2 (dbAfterUpdate db2 oid "returned") oid = none := by
      simp [_get_order_summary, hexn2]
    have hc : _confirmation_node ext2 db2 cs2 s2 =
        (dbAfterUpdate db2 oid "returned",
         { cs2 with current_order_id := some oid },
         Except.error "KeyError: \x27order_id\x27") := by
      unfold _confirmation_node
      rw [hoid]
      dsimp only
      rw [update_order_status_eq ext2 db2 oid "returned" hupd2]
      dsimp only
      rw [hs]
    rw [hc]
    exact ⟨rfl, rfl, rfl⟩

/-- C5 witness: both failure modes applied at concrete inputs - the caught
lookup failure stores the customer id, and the caught summary failure aborts
the turn with the UPDATE already logged. -/
theorem C5_witness :
    ((_conditions_check_node extLookupFail dbEmpty initialConversationState stateWithCustomerToken).1).customer_id =
      some "custabc12345" ∧
    (_confirmation_node extSummaryFail dbOneLongOrder initialConversationState stateNamingLongOrder).2.2 =
      Except.error "KeyError: \x27order_id\x27" ∧
    (_confirmation_node extSummaryFail dbOneLongOrder initialConversationState stateNamingLongOrder).1.update_log =
      dbOneLongOrder.update_log ++ [("returned", "ORDERAAAAAAAAAAAAAAAA0001")] := by
  have h := C5_caught_failures_not_atomic extLookupFail extSummaryFail dbEmpty dbOneLongOrder
    initialConversationState initialConversationState stateWithCustomerToken stateNamingLongOrder
    "custabc12345" "ORDERAAAAAAAAAAAAAAAA0001" rfl (by decide) rfl rfl (by decide)
  exact ⟨h.1.1, h.2.1, h.2.2.1⟩
